import Mathlib

/-!
Verification development for the RoadBot traffic assistant.

Shallow embedding of the traffic-data normalization pipeline
(`src/lib/server/anwb.ts`) and the intent-routing orchestrator
(`src/lib/server/bot.ts`).  JavaScript strings are modelled as Lean
`String`; string helpers (trim, case mapping, lexicographic comparison,
substring search) are re-implemented structurally over `List Char` so
that all definitions evaluate inside the kernel.  Machine integers in
the source are plain JavaScript numbers used as non-negative integers
(timestamps in milliseconds, delays in seconds), modelled as `Nat`.
Fallible code (the Zod `parse` call, the upstream fetch) is modelled
with `Except`.
-/

namespace RoadBot

/- ------------------------------------------------------------------
   String helpers (kernel-computable stand-ins for the JS built-ins)
   ------------------------------------------------------------------ -/

/-- Model of JavaScript `String.prototype.trim`: drop leading and
trailing whitespace. -/
def trimChars (l : List Char) : List Char :=
  ((l.dropWhile Char.isWhitespace).reverse.dropWhile Char.isWhitespace).reverse

/-- String version of `trimChars`. -/
def trimStr (s : String) : String := ⟨trimChars s.data⟩

/-- Model of JavaScript `toLowerCase` (ASCII case mapping suffices for
the road codes, Dutch keywords and city names this program handles). -/
def lowerStr (s : String) : String := ⟨s.data.map Char.toLower⟩

/-- Model of JavaScript `toUpperCase`. -/
def upperStr (s : String) : String := ⟨s.data.map Char.toUpper⟩

/-- Lexicographic order on character lists; model of the string
comparison used to sort incidents (the spec states lexicographic
comparison is the intended order on the ISO-format keys). -/
def leChars : List Char → List Char → Bool
  | [], _ => true
  | _ :: _, [] => false
  | a :: as, b :: bs => if a = b then leChars as bs else decide (a < b)

/-- Case-sensitive test that `pat` occurs as a prefix of `l`. -/
def prefAt : List Char → List Char → Bool
  | [], _ => true
  | _ :: _, [] => false
  | p :: ps, c :: cs => p = c && prefAt ps cs

/-- Case-sensitive contiguous substring test, the meaning of a
`/lit/.test(txt)` regular-expression test on a literal pattern. -/
def containsSub (pat : List Char) : List Char → Bool
  | [] => pat.isEmpty
  | c :: cs => prefAt pat (c :: cs) || containsSub pat cs

/-- Character-wise case-insensitive equality (the `i` regex flag). -/
def lcEq (a b : Char) : Bool := a.toLower = b.toLower

/-- Case-insensitive prefix test (anchored match with the `i` flag). -/
def ciPref : List Char → List Char → Bool
  | [], _ => true
  | _ :: _, [] => false
  | p :: ps, c :: cs => lcEq p c && ciPref ps cs

/-- JavaScript regex word character `\w`, i.e. `[A-Za-z0-9_]`. -/
def wordChar (c : Char) : Bool := c.isAlpha || c.isDigit || c = '_'

/-- Word boundary `\b` at the given point: end of input or a following
non-word character (all patterns in the source end in a word char). -/
def endBoundary : List Char → Bool
  | [] => true
  | c :: _ => !wordChar c

/- ------------------------------------------------------------------
   Sorting (structural model of the stable JS `Array.prototype.sort`)
   ------------------------------------------------------------------ -/

/-- Insert an element into a list so that a `le`-sorted list stays
sorted. -/
def insertLe {α : Type} (le : α → α → Bool) (x : α) : List α → List α
  | [] => [x]
  | y :: ys => if le x y then x :: y :: ys else y :: insertLe le x ys

/-- Insertion sort; a deterministic comparison sort modelling the JS
engine's `Array.prototype.sort` with a total-preorder comparator. -/
def isort {α : Type} (le : α → α → Bool) : List α → List α
  | [] => []
  | x :: xs => insertLe le x (isort le xs)

/- ------------------------------------------------------------------
   Data model (src/lib/server/anwb.ts)
   ------------------------------------------------------------------ -/

/-- The closed category enum of `CleanIncident` (`anwb.ts`). -/
inductive Category where
  | accident
  | construction
  | congestion
  | obstruction
  | weather
  | other
deriving DecidableEq

/-- The string the category is stored as in the Zod enum; the router's
category filter compares these strings against model-extracted text. -/
def catStr : Category → String
  | .accident => "accident"
  | .construction => "construction"
  | .congestion => "congestion"
  | .obstruction => "obstruction"
  | .weather => "weather"
  | .other => "other"

/-- The `status` enum of `CleanIncident` (`'open' | 'closed'`). -/
inductive Status where
  | opened
  | closed
deriving DecidableEq

/-- The upstream feed bucket a raw record came from (`anwb.ts` passes
one of `'trafficJams' | 'roadWorks' | 'radars'`). -/
inductive Bucket where
  | trafficJams
  | roadWorks
  | radars
deriving DecidableEq

/-- The canonical incident record (`CleanIncident` in `anwb.ts`). -/
structure Clean where
  id : String
  road : String
  location : String
  category : Category
  status : Status
  closure : Option String
  delay : Option Nat
  startISO : Option String
deriving DecidableEq

/-- One raw incident record from the ANWB feed; only the fields the
normalizer reads.  `fromLoc`/`toLoc` model the upstream `from`/`to`
segment markers (`from` is a Lean keyword).  A missing JSON field is
`none`. -/
structure RawIncident where
  id : Option String
  msgNr : Option String
  reason : Option String
  description : Option String
  location : Option String
  start : Option String
  stop : Option String
  timestamp : Option String
  fromLoc : Option String
  toLoc : Option String
  delay : Option Nat
deriving DecidableEq

/-- One upstream segment with its three independent incident lists. -/
structure RawSegment where
  start : Option String
  endLoc : Option String
  jams : Option (List RawIncident)
  roadworks : Option (List RawIncident)
  radars : Option (List RawIncident)
deriving DecidableEq

/-- One upstream road entry; `road` may be missing in a malformed
record (`roadEntry.road as string` in the source is only a cast). -/
structure RawRoadEntry where
  road : Option String
  segments : Option (List RawSegment)
deriving DecidableEq

/-- The upstream feed payload (`json.roads ?? []`). -/
structure Payload where
  roads : Option (List RawRoadEntry)
deriving DecidableEq

/-- JavaScript truthiness of an optional string (`undefined` and the
empty string are falsy). -/
def jsTruthyStr : Option String → Bool
  | none => false
  | some s => s ≠ ""

/- ------------------------------------------------------------------
   Category classifier (classify, anwb.ts lines 44-52)
   ------------------------------------------------------------------ -/

/-- Collision vocabulary of the `accident` rule
(`/ongeval|botsing|crash/`). -/
def vocabAccident : List String := ["ongeval", "botsing", "crash"]

/-- Weather vocabulary (`/mist|gladheid|wateroverlast|storm/`). -/
def vocabWeather : List String := ["mist", "gladheid", "wateroverlast", "storm"]

/-- Obstacle vocabulary (`/obstakel|stilgevallen|verlies van lading/`). -/
def vocabObstruction : List String := ["obstakel", "stilgevallen", "verlies van lading"]

/-- Test of a literal-alternation regex against a text: some pattern
occurs as a contiguous substring. -/
def matchesAny (pats : List String) (txt : String) : Bool :=
  pats.any (fun p => containsSub p.data txt.data)

/-- The concatenated, lowercased reason/description text classify
matches against (`${raw.reason ?? ''} ${raw.description ?? ''}`
`.toLowerCase()`). -/
def classifyText (raw : RawIncident) : String :=
  lowerStr (raw.reason.getD "" ++ " " ++ raw.description.getD "")

/-- The category classifier, rule for rule from `classify` in
`anwb.ts`: roadWorks bucket first, then accident, weather and
obstruction vocabulary, then the trafficJams bucket, else `other`. -/
def classify (raw : RawIncident) (bucket : Bucket) : Category :=
  let txt := classifyText raw
  if bucket = Bucket.roadWorks then .construction
  else if matchesAny vocabAccident txt then .accident
  else if matchesAny vocabWeather txt then .weather
  else if matchesAny vocabObstruction txt then .obstruction
  else if bucket = Bucket.trafficJams then .congestion
  else .other

/- ------------------------------------------------------------------
   Normalizer (toClean, anwb.ts lines 62-82)
   ------------------------------------------------------------------ -/

/-- Conversion of an upstream delay in seconds to whole minutes, the
meaning of `Math.round(d / 60)` on a non-negative integer: round half
up, i.e. `⌊(d + 30) / 60⌋`. -/
def roundDiv60 (d : Nat) : Nat := (d + 30) / 60

/-- The normalizer `toClean`.  `fmtDate` abstracts the deterministic
but locale/environment dependent `Date`/`toLocaleString('nl-NL', …)`
formatting; `uid` is the `crypto.randomUUID()` value that would be
consumed if both `id` and `msgNr` are absent.  The Zod
`CleanIncident.parse` call can only fail on the `road` field: every
other field of the constructed object satisfies its schema by
construction, while a missing road is not a string and makes `parse`
throw.  That failure is the `Except.error` case. -/
def toClean (fmtDate : String → String) (uid : String) (raw : RawIncident)
    (bucket : Bucket) (road : Option String) : Except String Clean :=
  let closedFlag := containsSub "dicht".data ((raw.reason.orElse fun _ => raw.description).getD "").data
  let closure :=
    if jsTruthyStr raw.start && jsTruthyStr raw.stop then
      some (fmtDate (raw.start.getD "") ++ " – " ++ fmtDate (raw.stop.getD ""))
    else none
  match road with
  | none => .error "ZodError: road: Required"
  | some rd =>
    .ok { id := raw.id.getD (raw.msgNr.getD uid)
          road := rd
          location := raw.location.getD
            (trimStr (rd ++ " " ++ raw.fromLoc.getD "" ++ "→" ++ raw.toLoc.getD ""))
          category := classify raw bucket
          status := if closedFlag then .closed else .opened
          closure := closure
          delay := match raw.delay with
            | some d => if d ≠ 0 then some (roundDiv60 d) else none
            | none => none
          startISO := raw.start.orElse fun _ => raw.timestamp }

/- ------------------------------------------------------------------
   Feed flattening and cache (fetchIncidents, anwb.ts lines 89-155)
   ------------------------------------------------------------------ -/

/-- Number of fresh-UUID tokens one raw record consumes (the
`crypto.randomUUID()` call only runs when both `id` and `msgNr` are
nullish). -/
def uuidCost (r : RawIncident) : Nat :=
  if r.id.isSome || r.msgNr.isSome then 0 else 1

/-- The location pre-fill applied inside each bucket loop of
`fetchIncidents`: `{ ...raw, location: raw.location ?? road + ' ' +
segmentStart + '→' + segmentEnd }`.  A missing road renders as the JS
string `"undefined"` inside the template literal (such a record is
rejected by the Zod check anyway). -/
def prefillLoc (road : Option String) (segStart segEnd : String) (r : RawIncident) :
    RawIncident :=
  { r with location := some (r.location.getD
      ((match road with | some s => s | none => "undefined") ++ " " ++ segStart ++ "→" ++ segEnd)) }

/-- One bucket loop of `fetchIncidents`: normalize each raw item of a
segment's list after the location pre-fill.  The `gen` argument is the
stream of `crypto.randomUUID()` results; `ctr` counts how many have
been consumed so far. -/
def procItems (fmtDate : String → String) (gen : Nat → String) (road : Option String)
    (segStart segEnd : String) (bucket : Bucket) :
    List RawIncident → Nat → Except String (List Clean × Nat)
  | [], ctr => .ok ([], ctr)
  | r :: rs, ctr =>
    match toClean fmtDate (gen ctr) (prefillLoc road segStart segEnd r) bucket road with
    | .error e => .error e
    | .ok c =>
      match procItems fmtDate gen road segStart segEnd bucket rs (ctr + uuidCost r) with
      | .error e => .error e
      | .ok (cs, ctr2) => .ok (c :: cs, ctr2)

/-- One segment of `fetchIncidents`: the jams loop, then the roadworks
loop, then the radars loop, in source order. -/
def procSegment (fmtDate : String → String) (gen : Nat → String) (road : Option String)
    (seg : RawSegment) (ctr : Nat) : Except String (List Clean × Nat) :=
  match procItems fmtDate gen road (seg.start.getD "") (seg.endLoc.getD "")
      .trafficJams (seg.jams.getD []) ctr with
  | .error e => .error e
  | .ok (c1, ctr1) =>
    match procItems fmtDate gen road (seg.start.getD "") (seg.endLoc.getD "")
        .roadWorks (seg.roadworks.getD []) ctr1 with
    | .error e => .error e
    | .ok (c2, ctr2) =>
      match procItems fmtDate gen road (seg.start.getD "") (seg.endLoc.getD "")
          .radars (seg.radars.getD []) ctr2 with
      | .error e => .error e
      | .ok (c3, ctr3) => .ok (c1 ++ c2 ++ c3, ctr3)

/-- The segment loop of one road entry. -/
def procSegments (fmtDate : String → String) (gen : Nat → String) (road : Option String) :
    List RawSegment → Nat → Except String (List Clean × Nat)
  | [], ctr => .ok ([], ctr)
  | seg :: segs, ctr =>
    match procSegment fmtDate gen road seg ctr with
    | .error e => .error e
    | .ok (c1, ctr1) =>
      match procSegments fmtDate gen road segs ctr1 with
      | .error e => .error e
      | .ok (c2, ctr2) => .ok (c1 ++ c2, ctr2)

/-- The road loop of `fetchIncidents`. -/
def procRoads (fmtDate : String → String) (gen : Nat → String) :
    List RawRoadEntry → Nat → Except String (List Clean × Nat)
  | [], ctr => .ok ([], ctr)
  | e :: es, ctr =>
    match procSegments fmtDate gen e.road (e.segments.getD []) ctr with
    | .error err => .error err
    | .ok (c1, ctr1) =>
      match procRoads fmtDate gen es ctr1 with
      | .error err => .error err
      | .ok (c2, ctr2) => .ok (c1 ++ c2, ctr2)

/-- Sort key of an incident: `startISO ?? ''`. -/
def sortKey (c : Clean) : String := c.startISO.getD ""

/-- Descending comparison used by
`clean.sort((a, b) => (b.startISO ?? '').localeCompare(a.startISO ?? ''))`:
`a` may precede `b` when `b`'s key is at most `a`'s key. -/
def descByStart (a b : Clean) : Bool := leChars (sortKey b).data (sortKey a).data

/-- Flatten one payload into the sorted list of canonical incidents:
the nested road/segment/bucket walk followed by the descending
`startISO` sort. -/
def flattenPayload (fmtDate : String → String) (gen : Nat → String) (p : Payload) :
    Except String (List Clean) :=
  match procRoads fmtDate gen (p.roads.getD []) 0 with
  | .error e => .error e
  | .ok (cs, _) => .ok (isort descByStart cs)

/-- The module-level cache slot (`{ ts, data }`). -/
structure CacheEntry where
  ts : Nat
  data : List Clean
deriving DecidableEq

/-- The cache freshness window in milliseconds (`60_000`). -/
def freshWindow : Nat := 60000

/-- One call of `fetchIncidents` as a state transition.  `cache` is
the module-level slot, `now` the value of `Date.now()`, `upstream` the
outcome of the network fetch (`.error` for a non-ok response).  The
result triple is (returned value or thrown error, new cache slot,
number of upstream fetches performed). -/
def fetchIncidents (fmtDate : String → String) (gen : Nat → String)
    (cache : Option CacheEntry) (now : Nat) (upstream : Except Unit Payload) :
    Except String (List Clean) × Option CacheEntry × Nat :=
  let fetchFresh : Except String (List Clean) × Option CacheEntry × Nat :=
    match upstream with
    | .error _ => (.error "ANWB feed error", cache, 1)
    | .ok p =>
      match flattenPayload fmtDate gen p with
      | .error e => (.error e, cache, 1)
      | .ok data => (.ok data, some ⟨now, data⟩, 1)
  match cache with
  | some e => if now - e.ts < freshWindow then (.ok e.data, some e, 0) else fetchFresh
  | none => fetchFresh

/- ------------------------------------------------------------------
   Conversation data (llm.ts Message schema)
   ------------------------------------------------------------------ -/

/-- Message role (`'user' | 'assistant'`). -/
inductive Role where
  | user
  | assistant
deriving DecidableEq

/-- One conversation message (`TMessage` in `llm.ts`). -/
structure Msg where
  role : Role
  content : String
deriving DecidableEq

/-- The entity-extraction result: four optional fields, a missing JSON
key being `none` (`extractEntities` in `llm.ts`). -/
structure Entities where
  roads : Option (List String)
  categories : Option (List String)
  origin : Option String
  destination : Option String
deriving DecidableEq

/- ------------------------------------------------------------------
   Query pre-processing (preprocessQuery, bot.ts lines 23-33)
   ------------------------------------------------------------------ -/

/-- Matcher for a literal word alternative with its trailing `\b`:
case-insensitive prefix match followed by a word boundary; returns the
matched length. -/
def litWordM (w : String) (l : List Char) : Option Nat :=
  if ciPref w.data l && endBoundary (l.drop w.data.length) then some w.data.length else none

/-- Matcher for `base` followed by an optional `s` (`works?`,
`roads?`); the greedy branch with `s` is tried first, exactly like the
regex engine. -/
def litWordOptS (base : String) (l : List Char) : Option Nat :=
  match litWordM (base ++ "s") l with
  | some n => some n
  | none => litWordM base l

/-- Matcher for the alternative `road\s?works?` of the construction
rewrite: `road`, an optional single whitespace, then `works?`, then
the trailing `\b`. -/
def roadWorksM (l : List Char) : Option Nat :=
  if ciPref "road".data l then
    let rest := l.drop 4
    match rest with
    | c :: rest2 =>
      if c.isWhitespace then
        match litWordOptS "work" rest2 with
        | some n => some (5 + n)
        | none =>
          match litWordOptS "work" rest with
          | some n => some (4 + n)
          | none => none
      else
        match litWordOptS "work" rest with
        | some n => some (4 + n)
        | none => none
    | [] => none
  else none

/-- Matcher for the alternative `on\s+roads?`: `on`, at least one
whitespace character (greedily consumed), then `roads?` and `\b`. -/
def onRoadsM (l : List Char) : Option Nat :=
  if ciPref "on".data l then
    let rest := l.drop 2
    let k := (rest.takeWhile Char.isWhitespace).length
    if k = 0 then none
    else
      match litWordOptS "road" (rest.drop k) with
      | some n => some (2 + k + n)
      | none => none
  else none

/-- First matching alternative of a pattern at the current position. -/
def firstAlt (alts : List (List Char → Option Nat)) (l : List Char) : Option Nat :=
  match alts with
  | [] => none
  | m :: ms =>
    match m l with
    | some n => some n
    | none => firstAlt ms l

/-- The scan of one global, case-insensitive, word-bounded
`String.replace` pass: at every position whose preceding character is
not a word character (the leading `\b`), try the alternatives; on a
match emit the replacement and continue after the matched text (whose
last character is always a word character). -/
def scanRepl (alts : List (List Char → Option Nat)) (repl : List Char) :
    Bool → List Char → List Char
  | _, [] => []
  | prevW, c :: cs =>
    match if prevW then none else firstAlt alts (c :: cs) with
    | some n =>
      if _hn : n = 0 then c :: scanRepl alts repl (wordChar c) cs
      else repl ++ scanRepl alts repl true ((c :: cs).drop n)
    | none => c :: scanRepl alts repl (wordChar c) cs
termination_by _ l => l.length
decreasing_by
  all_goals simp only [List.length_drop, List.length_cons]
  all_goals omega

/-- One replacement pass over a string. -/
def replacePass (alts : List (List Char → Option Nat)) (repl : String) (s : String) : String :=
  ⟨scanRepl alts repl.data false s.data⟩

/-- The synonym rewriting of `preprocessQuery` in `bot.ts`: four
sequential global replaces mapping user vocabulary onto the category
tokens the entity extractor expects.  The `history` parameter is
accepted and ignored, as in the source. -/
def preprocessQuery (query : String) (_history : List Msg) : String :=
  let p1 := replacePass [litWordM "jams"] "congestion" query
  let p2 := replacePass [roadWorksM, litWordM "building"] "construction" p1
  let p3 := replacePass [litWordM "problems", litWordM "issues",
    litWordM "inconveniences", litWordM "disruptions"] "all_categories" p2
  replacePass [onRoadsM, litWordM "everywhere", litWordM "general", litWordM "overall"]
    "all_categories" p3

/- ------------------------------------------------------------------
   Greeting detection (greetingRE, bot.ts line 15)
   ------------------------------------------------------------------ -/

/-- Test of the anchored greeting regex
`/^(hi|hello|hey|hallo|good\s(morning|afternoon|evening))\b/i`:
one of the greeting words as a case-insensitive prefix, followed by a
word boundary.  `good` must be followed by a single whitespace and one
of the three day parts. -/
def greetingMatch (s : String) : Bool :=
  let l := s.data
  let lit (w : String) : Bool := ciPref w.data l && endBoundary (l.drop w.data.length)
  let dayPart (w : String) (rest : List Char) : Bool :=
    ciPref w.data rest && endBoundary (rest.drop w.data.length)
  lit "hi" || lit "hello" || lit "hey" || lit "hallo" ||
    (ciPref "good".data l &&
      match l.drop 4 with
      | c :: rest =>
        c.isWhitespace &&
          (dayPart "morning" rest || dayPart "afternoon" rest || dayPart "evening" rest)
      | [] => false)

/- ------------------------------------------------------------------
   Route heuristic (isIncidentOnRoute, bot.ts lines 43-58)
   ------------------------------------------------------------------ -/

/-- The static city-pair → highway-list table (`routeMap`). -/
def routeMap : List (String × List String) :=
  [("vlissingen-amsterdam", ["A58", "A4", "A2", "A10", "N57", "N59"]),
   ("amsterdam-rotterdam", ["A4", "A2", "A13"])]

/-- The composite lookup key: lowercased, trimmed origin and
destination joined with a dash. -/
def routeKey (origin destination : String) : String :=
  trimStr (lowerStr origin) ++ "-" ++ trimStr (lowerStr destination)

/-- The route heuristic: true iff the incident's uppercased road is in
the highway list of the (directional) city pair; an unknown pair
yields the empty list. -/
def isIncidentOnRoute (incident : Clean) (origin destination : String) : Bool :=
  let relevantRoads := (routeMap.lookup (routeKey origin destination)).getD []
  relevantRoads.contains (upperStr incident.road)

/- ------------------------------------------------------------------
   Entity-driven filtering and the orchestrator
   (getReply, bot.ts lines 66-125)
   ------------------------------------------------------------------ -/

/-- All valid categories except `other`, the expansion of the
`all_categories` marker in `getReply`. -/
def allCategoriesExpansion : List String :=
  ["accident", "construction", "congestion", "obstruction", "weather"]

/-- The category list actually filtered with: the whole list is
replaced by the expansion when it mentions `all_categories`. -/
def expandCats (cs : List String) : List String :=
  if cs.contains "all_categories" then allCategoriesExpansion else cs

/-- The Case-1 filtering of `getReply`: a road filter (uppercase exact
match) when a non-empty road list was extracted, then a category
filter (exact string match after `all_categories` expansion) when a
non-empty category list was extracted. -/
def filterByEntities (entities : Entities) (allIncidents : List Clean) : List Clean :=
  let r1 := match entities.roads with
    | some rs =>
      if rs.length > 0 then
        allIncidents.filter (fun i => (rs.map upperStr).contains (upperStr i.road))
      else allIncidents
    | none => allIncidents
  match entities.categories with
  | some cs =>
    if cs.length > 0 then
      r1.filter (fun i => (expandCats cs).contains (catStr i.category))
    else r1
  | none => r1

/-- The external model capabilities `getReply` consumes, as pure
functions: `extract` never throws (its `JSON.parse` failure is caught
and degraded to `{}` inside `extractEntities`), and the three
generation capabilities return strings (`callLLM` catches its own
failures). -/
structure Caps where
  extract : String → List Msg → Entities
  answer : String → List Clean → List Msg → Entities → String
  routeSummary : List Clean → String → String → String
  chat : String → List Msg → String

/-- Tag of one model-capability invocation, for counting the calls a
turn makes. -/
inductive CapCall where
  | extract
  | answer
  | routeSummary
  | chat
deriving DecidableEq

/-- The orchestrator `getReply`.  `fetchRes` is the outcome of the
`fetchIncidents()` await (`.error` when the fetch threw).  The result
is the returned string or the propagated exception, paired with the
ordered list of model-capability calls the turn performed.  The
branches mirror the source: empty-query guard, greeting guard,
pre-process, entity extraction, incident fetch, then Case 1
(roads/categories key present — even empty, an array being truthy),
Case 2 (truthy origin and destination), Case 3 (general chat). -/
def getReply (caps : Caps) (fetchRes : Except String (List Clean))
    (query : String) (history : List Msg) :
    Except String String × List CapCall :=
  let q := trimStr query
  if q = "" then (.ok "I didn't receive a message. Please try again.", [])
  else if greetingMatch q then
    (.ok "Hello! How can I assist you with traffic information today?", [])
  else
    let processedQuery := preprocessQuery q history
    let entities := caps.extract processedQuery history
    match fetchRes with
    | .error e => (.error e, [CapCall.extract])
    | .ok allIncidents =>
      if entities.roads.isSome || entities.categories.isSome then
        (.ok (caps.answer q (filterByEntities entities allIncidents) history entities),
          [CapCall.extract, CapCall.answer])
      else if jsTruthyStr entities.origin && jsTruthyStr entities.destination then
        let o := entities.origin.getD ""
        let d := entities.destination.getD ""
        (.ok (caps.routeSummary
          (allIncidents.filter (fun inc => isIncidentOnRoute inc o d)) o d),
          [CapCall.extract, CapCall.routeSummary])
      else (.ok (caps.chat q history), [CapCall.extract, CapCall.chat])

/-- Raw record whose text matches the collision vocabulary, for the
C4 witness. -/
def rawCrash : RawIncident :=
  ⟨some "1", none, some "Crash op de rijbaan", none, some "loc", none, none, none, none, none, none⟩

/-- Raw record with a 90-second delay, for the C2 witness. -/
def rawDelay90 : RawIncident :=
  ⟨some "2", none, none, none, some "loc", none, none, none, none, none, some 90⟩

/-- Raw record with a 10-second delay, for the C2 counterexample. -/
def rawDelay10 : RawIncident :=
  ⟨some "3", none, none, none, some "loc", none, none, none, none, none, some 10⟩

/- ------------------------------------------------------------------
   C3: malformed records are not skipped
   ------------------------------------------------------------------ -/

/-- A segment holds at least one raw incident in one of its three
bucket lists. -/
def hasRawIncident (seg : RawSegment) : Bool :=
  !(seg.jams.getD []).isEmpty || !(seg.roadworks.getD []).isEmpty ||
    !(seg.radars.getD []).isEmpty

/-- A raw jam record with no identifying fields at all. -/
def rawBare : RawIncident :=
  ⟨none, none, none, none, none, none, none, none, none, none, none⟩

/-- A segment holding a single jam record. -/
def segOneJam : RawSegment := ⟨some "kn1", some "kn2", some [rawBare], none, none⟩

/-- A road entry whose `road` field is missing but which carries an
incident. -/
def entryNoRoad : RawRoadEntry := ⟨none, some [segOneJam]⟩

/-- A payload containing a road entry with a missing road field. -/
def payloadNoRoad : Payload := ⟨some [entryNoRoad]⟩

/-- A jam record with only an id and a start timestamp. -/
def rawJamAt (idv iso : String) : RawIncident :=
  ⟨some idv, none, none, none, none, some iso, none, none, none, none, none⟩

/-- A payload with two jams out of order and one roadwork without any
timestamp, exercising the sort. -/
def payloadSort : Payload :=
  ⟨some [⟨some "A2", some [⟨some "kn1", some "kn2",
    some [rawJamAt "a" "2024-01-01T10:00", rawJamAt "b" "2024-03-01T10:00"],
    some [rawBare], none⟩]⟩]⟩

/-- The flattened form of `payloadSort`. -/
def flatSort : List Clean :=
  (flattenPayload id (fun n => "uuid-" ++ toString n) payloadSort).toOption.getD []

/- ------------------------------------------------------------------
   C8: determinism of the pipeline
   ------------------------------------------------------------------ -/

/-- A raw record that carries an upstream identity (id or message
number), so it never consumes a fresh UUID. -/
def recordKeepsId (r : RawIncident) : Bool := r.id.isSome || r.msgNr.isSome

/-- Every raw record of the payload carries an upstream identity. -/
def noAnonPayload (p : Payload) : Bool :=
  (p.roads.getD []).all fun e => (e.segments.getD []).all fun s =>
    ((s.jams.getD []) ++ (s.roadworks.getD []) ++ (s.radars.getD [])).all recordKeepsId

/-- A payload whose two records both carry upstream identities. -/
def payloadWithIds : Payload :=
  ⟨some [⟨some "A2", some [⟨some "kn1", some "kn2",
    some [rawJamAt "a" "2024-01-01T10:00"],
    some [⟨none, some "m7", none, none, none, none, none, none, none, none, some 120⟩],
    none⟩]⟩]⟩

/-- A payload with one record lacking both `id` and `msgNr`. -/
def payloadAnon : Payload :=
  ⟨some [⟨some "A2", some [⟨some "kn1", some "kn2", some [rawBare], none, none⟩]⟩]⟩

/-- Witness data for C5: an empty upstream payload. -/
def payloadEmpty : Payload := ⟨none⟩

/-- Capabilities returning fixed values, for concrete `getReply`
runs. -/
def capsPlain : Caps :=
  ⟨fun _ _ => ⟨none, none, none, none⟩, fun _ _ _ _ => "answer", fun _ _ _ => "route",
    fun _ _ => "chat"⟩

/-- Capabilities whose extraction yields empty road and category lists
with both route endpoints present. -/
def capsEmptyLists : Caps :=
  ⟨fun _ _ => ⟨some [], some [], some "Amsterdam", some "Rotterdam"⟩,
    fun _ _ _ _ => "answer", fun _ _ _ => "route", fun _ _ => "chat"⟩

/-- Two incidents used by the router witnesses. -/
def incA2acc : Clean := ⟨"i1", "A2", "loc1", .accident, .opened, none, none, none⟩

def incA2con : Clean := ⟨"i2", "A2", "loc2", .construction, .opened, none, none, none⟩

/-- Capabilities whose extraction yields the road `A2` and the
category `construction`, the spec's filtering scenario. -/
def capsA2Con : Caps :=
  ⟨fun _ _ => ⟨some ["A2"], some ["construction"], none, none⟩,
    fun _ _ _ _ => "answer", fun _ _ _ => "route", fun _ _ => "chat"⟩

/- ------------------------------------------------------------------
   Theorems
   ------------------------------------------------------------------ -/

theorem mem_insertLe {α : Type} (le : α → α → Bool) (x : α) (l : List α) (a : α) :
    a ∈ insertLe le x l ↔ a = x ∨ a ∈ l := by
  induction l with
  | nil => simp [insertLe]
  | cons y ys ih =>
    by_cases h : le x y = true
    · simp only [insertLe, if_pos h, List.mem_cons]
    · simp only [insertLe, if_neg h, List.mem_cons, ih]
      tauto

theorem pairwise_insertLe {α : Type} (le : α → α → Bool)
    (htot : ∀ a b, le a b || le b a)
    (htrans : ∀ a b c, le a b = true → le b c = true → le a c = true)
    (x : α) (l : List α) (hl : l.Pairwise (le · · = true)) :
    (insertLe le x l).Pairwise (le · · = true) := by
  induction l with
  | nil => simp [insertLe]
  | cons y ys ih =>
    rcases List.pairwise_cons.mp hl with ⟨hy, hys⟩
    by_cases h : le x y = true
    · simp only [insertLe, if_pos h]
      refine List.pairwise_cons.mpr ⟨?_, hl⟩
      intro a ha
      rcases List.mem_cons.mp ha with rfl | ha
      · exact h
      · exact htrans x y a h (hy a ha)
    · have hyx : le y x = true := by
        have := htot x y
        simp [h] at this
        exact this
      simp only [insertLe, if_neg h]
      refine List.pairwise_cons.mpr ⟨?_, ih hys⟩
      intro a ha
      rcases (mem_insertLe le x ys a).mp ha with rfl | ha
      · exact hyx
      · exact hy a ha

theorem pairwise_isort {α : Type} (le : α → α → Bool)
    (htot : ∀ a b, le a b || le b a)
    (htrans : ∀ a b c, le a b = true → le b c = true → le a c = true)
    (l : List α) : (isort le l).Pairwise (le · · = true) := by
  induction l with
  | nil => simp [isort]
  | cons x xs ih => exact pairwise_insertLe le htot htrans x (isort le xs) ih

theorem leChars_total (a b : List Char) : leChars a b || leChars b a := by
  induction a generalizing b with
  | nil => simp [leChars]
  | cons x xs ih =>
    cases b with
    | nil => simp [leChars]
    | cons y ys =>
      by_cases h : x = y
      · subst h
        simpa [leChars] using ih ys
      · have h2 : ¬ y = x := fun hh => h hh.symm
        simp only [leChars, if_neg h, if_neg h2]
        rcases lt_trichotomy x y with hlt | heq | hgt
        · simp [hlt]
        · exact absurd heq h
        · simp [hgt, le_of_lt, not_lt.mpr (le_of_lt hgt)]

theorem leChars_trans (a b c : List Char)
    (h1 : leChars a b = true) (h2 : leChars b c = true) : leChars a c = true := by
  induction a generalizing b c with
  | nil => simp [leChars]
  | cons x xs ih =>
    cases b with
    | nil => simp [leChars] at h1
    | cons y ys =>
      cases c with
      | nil => simp [leChars] at h2
      | cons z zs =>
        by_cases hxy : x = y
        · subst hxy
          by_cases hxz : x = z
          · subst hxz
            simp only [leChars, if_pos rfl] at h1 h2
            simp only [leChars, if_pos rfl]
            exact ih ys zs h1 h2
          · simp only [leChars, if_pos rfl] at h1
            simp only [leChars, if_neg hxz] at h2
            simp only [leChars, if_neg hxz]
            exact h2
        · simp only [leChars, if_neg hxy] at h1
          by_cases hyz : y = z
          · subst hyz
            simp only [leChars, if_neg hxy]
            exact h1
          · simp only [leChars, if_neg hyz] at h2
            have hlt : x < z := lt_trans (of_decide_eq_true h1) (of_decide_eq_true h2)
            have hxz : ¬ x = z := fun hh => absurd (hh ▸ hlt) (lt_irrefl z)
            simp only [leChars, if_neg hxz]
            exact decide_eq_true hlt

/- ------------------------------------------------------------------
   Shared helper lemmas
   ------------------------------------------------------------------ -/

theorem contains_iff_mem {α : Type} [BEq α] [LawfulBEq α] (l : List α) (a : α) :
    l.contains a = true ↔ a ∈ l := by
  simp [List.elem_iff]

/- ------------------------------------------------------------------
   C4: classifier rule order
   ------------------------------------------------------------------ -/

/-- C4: `classify` evaluates its rules in strict first-match-wins
order: bucket `roadWorks` yields `construction` unconditionally
(regardless of text); otherwise collision vocabulary yields
`accident`; otherwise weather vocabulary yields `weather`; otherwise
obstacle vocabulary yields `obstruction`; otherwise bucket
`trafficJams` yields `congestion`; otherwise (`radars`) `other`. -/
theorem classify_first_match_order (raw : RawIncident) (bucket : Bucket) :
    (bucket = .roadWorks → classify raw bucket = .construction) ∧
    (bucket ≠ .roadWorks → matchesAny vocabAccident (classifyText raw) = true →
      classify raw bucket = .accident) ∧
    (bucket ≠ .roadWorks → matchesAny vocabAccident (classifyText raw) = false →
      matchesAny vocabWeather (classifyText raw) = true →
      classify raw bucket = .weather) ∧
    (bucket ≠ .roadWorks → matchesAny vocabAccident (classifyText raw) = false →
      matchesAny vocabWeather (classifyText raw) = false →
      matchesAny vocabObstruction (classifyText raw) = true →
      classify raw bucket = .obstruction) ∧
    (bucket = .trafficJams → matchesAny vocabAccident (classifyText raw) = false →
      matchesAny vocabWeather (classifyText raw) = false →
      matchesAny vocabObstruction (classifyText raw) = false →
      classify raw bucket = .congestion) ∧
    (bucket = .radars → matchesAny vocabAccident (classifyText raw) = false →
      matchesAny vocabWeather (classifyText raw) = false →
      matchesAny vocabObstruction (classifyText raw) = false →
      classify raw bucket = .other) := by
  refine ⟨?_, ?_, ?_, ?_, ?_, ?_⟩
  · intro h; simp [classify, h]
  · intro h h1; simp [classify, h, h1]
  · intro h h1 h2; simp [classify, h, h1, h2]
  · intro h h1 h2 h3; simp [classify, h, h1, h2, h3]
  · intro h h1 h2 h3; simp [classify, h, h1, h2, h3]
  · intro h h1 h2 h3; subst h; simp [classify, h1, h2, h3]

/-- Witness for C4: the roadWorks bucket overrides crash text, and the
crash text yields `accident` in the trafficJams bucket. -/
theorem classify_first_match_order_witness :
    classify rawCrash .roadWorks = .construction ∧
    classify rawCrash .trafficJams = .accident :=
  ⟨(classify_first_match_order rawCrash .roadWorks).1 rfl,
   (classify_first_match_order rawCrash .trafficJams).2.1 (by decide) (by decide)⟩

/- ------------------------------------------------------------------
   C9: route heuristic
   ------------------------------------------------------------------ -/

/-- C9: `isIncidentOnRoute` trims and lowercases origin and
destination, looks up the directional composite key
`origin-destination` in the static route table, and returns true iff
the incident's uppercased road appears in that pair's highway list;
any city pair absent from the table yields false (there is no `some`
list for it). -/
theorem isIncidentOnRoute_table_lookup (incident : Clean) (origin destination : String) :
    isIncidentOnRoute incident origin destination = true ↔
      ∃ hs, routeMap.lookup (routeKey origin destination) = some hs ∧
        upperStr incident.road ∈ hs := by
  unfold isIncidentOnRoute
  cases h : routeMap.lookup (routeKey origin destination) with
  | none => simp [h]
  | some hs => simp [h, contains_iff_mem]

/-- Witness for C9: the spec scenario — an A2 incident is on the
Amsterdam→Rotterdam route, and the reversed pair (absent from the
table) yields false. -/
theorem isIncidentOnRoute_table_lookup_witness :
    isIncidentOnRoute incA2acc "Amsterdam" "Rotterdam" = true ∧
    isIncidentOnRoute incA2acc "Rotterdam" "Amsterdam" = false :=
  ⟨(isIncidentOnRoute_table_lookup incA2acc "Amsterdam" "Rotterdam").mpr
      ⟨["A4", "A2", "A13"], rfl, by decide⟩,
   by
    have h := isIncidentOnRoute_table_lookup incA2acc "Rotterdam" "Amsterdam"
    rcases hb : isIncidentOnRoute incA2acc "Rotterdam" "Amsterdam" with _ | _
    · rfl
    · obtain ⟨hs, hlk, _⟩ := h.mp hb
      rw [show routeMap.lookup (routeKey "Rotterdam" "Amsterdam") = none from rfl] at hlk
      cases hlk⟩

/- ------------------------------------------------------------------
   C2: delay conversion
   ------------------------------------------------------------------ -/

/-- C2 (amended): for a raw delay of `d` seconds with `d ≥ 30` the
emitted delay is `round(d/60)` minutes (which is at least 1); a delay
of `0` or an absent delay yields an omitted field; but for
`1 ≤ d ≤ 29` the field is emitted with the literal value `0`
(`raw.delay` is truthy and `Math.round(d/60)` is `0`). -/
theorem toClean_delay_rounding (fmtDate : String → String) (uid : String)
    (raw : RawIncident) (bucket : Bucket) (rd : String) :
    (∀ d, raw.delay = some d → 30 ≤ d →
      (toClean fmtDate uid raw bucket (some rd)).map Clean.delay = .ok (some (roundDiv60 d)) ∧
      1 ≤ roundDiv60 d) ∧
    ((raw.delay = none ∨ raw.delay = some 0) →
      (toClean fmtDate uid raw bucket (some rd)).map Clean.delay = .ok none) ∧
    (∀ d, raw.delay = some d → 1 ≤ d → d ≤ 29 →
      (toClean fmtDate uid raw bucket (some rd)).map Clean.delay = .ok (some 0)) := by
  refine ⟨?_, ?_, ?_⟩
  · intro d hd h30
    have hne : d ≠ 0 := by omega
    constructor
    · simp [toClean, Except.map, hd, hne]
    · simp only [roundDiv60]
      omega
  · rintro (h | h) <;> simp [toClean, Except.map, h]
  · intro d hd h1 h29
    have hne : d ≠ 0 := by omega
    have h0 : roundDiv60 d = 0 := by
      simp only [roundDiv60]
      omega
    rw [← h0]
    simp [toClean, Except.map, hd, hne]

/-- Witness for C2 (amended): 90 seconds rounds to 2 minutes (here
`round(90/60) = 2`), and a 29-second delay is emitted as 0. -/
theorem toClean_delay_rounding_witness :
    (toClean id "u" rawDelay90 Bucket.trafficJams (some "A2")).map Clean.delay
        = .ok (some 2) ∧
    (toClean id "u" { rawDelay90 with delay := some 29 } Bucket.trafficJams
        (some "A2")).map Clean.delay = .ok (some 0) :=
  ⟨((toClean_delay_rounding id "u" rawDelay90 Bucket.trafficJams "A2").1 90 rfl (by decide)).1,
   (toClean_delay_rounding id "u" { rawDelay90 with delay := some 29 }
      Bucket.trafficJams "A2").2.2 29 rfl (by decide) (by decide)⟩

/-- Counterexample for C2 as stated: a raw item with upstream delay 10
seconds is emitted with `delay` present and equal to the literal `0`,
so `0` does appear as a delay in an emitted incident. -/
theorem toClean_delay_literal_zero_cex :
    (toClean id "u" rawDelay10 Bucket.trafficJams (some "A2")).map Clean.delay
        = .ok (some 0) ∧
    (some 0 : Option Nat) ≠ none :=
  ⟨rfl, by decide⟩

theorem procItems_road_none_error (fmtDate : String → String) (gen : Nat → String)
    (ss se : String) (bucket : Bucket) (r : RawIncident) (rs : List RawIncident) (ctr : Nat) :
    procItems fmtDate gen none ss se bucket (r :: rs) ctr = .error "ZodError: road: Required" :=
  rfl

theorem procSegment_road_none_error (fmtDate : String → String) (gen : Nat → String)
    (seg : RawSegment) (ctr : Nat) (h : hasRawIncident seg = true) :
    ∃ m, procSegment fmtDate gen none seg ctr = .error m := by
  unfold procSegment
  cases hj : seg.jams.getD [] with
  | cons r rs => exact ⟨"ZodError: road: Required", rfl⟩
  | nil =>
    cases hw : seg.roadworks.getD [] with
    | cons r rs => exact ⟨"ZodError: road: Required", rfl⟩
    | nil =>
      cases hr : seg.radars.getD [] with
      | cons r rs => exact ⟨"ZodError: road: Required", rfl⟩
      | nil =>
        exfalso
        simp [hasRawIncident, hj, hw, hr] at h

theorem procSegments_road_none_error (fmtDate : String → String) (gen : Nat → String)
    (segs : List RawSegment) (seg : RawSegment)
    (hmem : seg ∈ segs) (h : hasRawIncident seg = true) :
    ∀ ctr, ∃ m, procSegments fmtDate gen none segs ctr = .error m := by
  induction segs with
  | nil => cases hmem
  | cons s ss ih =>
    intro ctr
    rcases List.mem_cons.mp hmem with rfl | hmem2
    · obtain ⟨m, hm⟩ := procSegment_road_none_error fmtDate gen seg ctr h
      exact ⟨m, by simp only [procSegments, hm]⟩
    · cases hs : procSegment fmtDate gen none s ctr with
      | error e => exact ⟨e, by simp only [procSegments, hs]⟩
      | ok pr =>
        obtain ⟨cs1, ctr1⟩ := pr
        obtain ⟨m, hm⟩ := ih hmem2 ctr1
        exact ⟨m, by simp only [procSegments, hs, hm]⟩

theorem procRoads_road_none_error (fmtDate : String → String) (gen : Nat → String)
    (es : List RawRoadEntry) (entry : RawRoadEntry) (seg : RawSegment)
    (hmem : entry ∈ es) (hroad : entry.road = none)
    (hseg : seg ∈ entry.segments.getD []) (h : hasRawIncident seg = true) :
    ∀ ctr, ∃ m, procRoads fmtDate gen es ctr = .error m := by
  induction es with
  | nil => cases hmem
  | cons e2 es2 ih =>
    intro ctr
    rcases List.mem_cons.mp hmem with rfl | hmem2
    · obtain ⟨m, hm⟩ :=
        procSegments_road_none_error fmtDate gen (entry.segments.getD []) seg hseg h ctr
      rw [← hroad] at hm
      exact ⟨m, by simp only [procRoads, hm]⟩
    · cases hs : procSegments fmtDate gen e2.road (e2.segments.getD []) ctr with
      | error e => exact ⟨e, by simp only [procRoads, hs]⟩
      | ok pr =>
        obtain ⟨cs1, ctr1⟩ := pr
        obtain ⟨m, hm⟩ := ih hmem2 ctr1
        exact ⟨m, by simp only [procRoads, hs, hm]⟩

/-- C3 (amended): an upstream record under a road entry whose `road`
field is missing is not skipped — the Zod check throws and the whole
flatten fails with a validation error, so flattening such a payload
raises an exception (and consequently emits nothing at all). -/
theorem flatten_missing_road_errors (fmtDate : String → String) (gen : Nat → String)
    (p : Payload) (entry : RawRoadEntry) (seg : RawSegment)
    (hmem : entry ∈ p.roads.getD []) (hroad : entry.road = none)
    (hseg : seg ∈ entry.segments.getD []) (h : hasRawIncident seg = true) :
    ∃ m, flattenPayload fmtDate gen p = .error m := by
  obtain ⟨m, hm⟩ :=
    procRoads_road_none_error fmtDate gen (p.roads.getD []) entry seg hmem hroad hseg h 0
  exact ⟨m, by rw [flattenPayload, hm]⟩

/-- Witness for C3 (amended): the missing-road payload makes the
flatten fail. -/
theorem flatten_missing_road_errors_witness :
    entryNoRoad ∈ payloadNoRoad.roads.getD [] ∧
    entryNoRoad.road = none ∧
    segOneJam ∈ entryNoRoad.segments.getD [] ∧
    hasRawIncident segOneJam = true ∧
    ∃ m, flattenPayload id (fun _ => "uuid-0") payloadNoRoad = .error m :=
  ⟨by decide, rfl, by decide, rfl,
    flatten_missing_road_errors id (fun _ => "uuid-0") payloadNoRoad entryNoRoad segOneJam
      (by decide) rfl (by decide) rfl⟩

/-- Counterexample for C3 as stated: flattening a payload with one
missing-road record raises the Zod validation error instead of
skipping the record — flattening is not exception-free. -/
theorem flatten_missing_road_cex :
    flattenPayload id (fun _ => "uuid-0") payloadNoRoad = .error "ZodError: road: Required" :=
  rfl

/- ------------------------------------------------------------------
   C7: descending sort by startISO
   ------------------------------------------------------------------ -/

theorem descByStart_total (a b : Clean) : descByStart a b || descByStart b a :=
  leChars_total (sortKey b).data (sortKey a).data

theorem descByStart_trans (a b c : Clean)
    (h1 : descByStart a b = true) (h2 : descByStart b c = true) : descByStart a c = true :=
  leChars_trans (sortKey c).data (sortKey b).data (sortKey a).data h2 h1

/-- C7: every successful flatten result is sorted in descending
lexicographic order of the `startISO` key, a record without a
timestamp keying as the empty string (`sortKey`), hence sorting
last. -/
theorem flatten_sorted_desc (fmtDate : String → String) (gen : Nat → String)
    (p : Payload) (cs : List Clean) (h : flattenPayload fmtDate gen p = .ok cs) :
    cs.Pairwise (fun a b => leChars (sortKey b).data (sortKey a).data = true) := by
  unfold flattenPayload at h
  cases hp : procRoads fmtDate gen (p.roads.getD []) 0 with
  | error e => rw [hp] at h; cases h
  | ok pr =>
    rw [hp] at h
    injection h with h2
    rw [← h2]
    exact pairwise_isort descByStart descByStart_total descByStart_trans pr.1

/-- Witness for C7: the concrete flatten succeeds and its output is
pairwise descending on the `startISO` key. -/
theorem flatten_sorted_desc_witness :
    flattenPayload id (fun n => "uuid-" ++ toString n) payloadSort = .ok flatSort ∧
    flatSort.Pairwise (fun a b => leChars (sortKey b).data (sortKey a).data = true) :=
  ⟨rfl, flatten_sorted_desc id (fun n => "uuid-" ++ toString n) payloadSort flatSort rfl⟩

theorem toClean_uid_irrel (fmtDate : String → String) (u1 u2 : String)
    (raw : RawIncident) (bucket : Bucket) (road : Option String)
    (h : recordKeepsId raw = true) :
    toClean fmtDate u1 raw bucket road = toClean fmtDate u2 raw bucket road := by
  cases road with
  | none => rfl
  | some rd =>
    rcases hid : raw.id with _ | v
    · rcases hmsg : raw.msgNr with _ | w
      · simp [recordKeepsId, hid, hmsg] at h
      · simp [toClean, hid, hmsg]
    · simp [toClean, hid]

theorem recordKeepsId_prefillLoc (road : Option String) (ss se : String) (r : RawIncident) :
    recordKeepsId (prefillLoc road ss se r) = recordKeepsId r :=
  rfl

theorem procItems_gen_irrel (fmtDate : String → String) (gen1 gen2 : Nat → String)
    (road : Option String) (ss se : String) (bucket : Bucket)
    (items : List RawIncident) (h : items.all recordKeepsId = true) :
    ∀ ctr, procItems fmtDate gen1 road ss se bucket items ctr
      = procItems fmtDate gen2 road ss se bucket items ctr := by
  induction items with
  | nil => intro ctr; rfl
  | cons r rs ih =>
    intro ctr
    rw [List.all_cons, Bool.and_eq_true] at h
    have hkeep : recordKeepsId (prefillLoc road ss se r) = true := by
      rw [recordKeepsId_prefillLoc]
      exact h.1
    simp only [procItems]
    rw [toClean_uid_irrel fmtDate (gen1 ctr) (gen2 ctr) (prefillLoc road ss se r)
      bucket road hkeep, ih h.2 (ctr + uuidCost r)]

theorem procSegment_gen_irrel (fmtDate : String → String) (gen1 gen2 : Nat → String)
    (road : Option String) (seg : RawSegment)
    (h : ((seg.jams.getD []) ++ (seg.roadworks.getD []) ++ (seg.radars.getD [])).all
      recordKeepsId = true) :
    ∀ ctr, procSegment fmtDate gen1 road seg ctr = procSegment fmtDate gen2 road seg ctr := by
  intro ctr
  rw [List.all_append, List.all_append] at h
  simp only [Bool.and_eq_true] at h
  unfold procSegment
  rw [procItems_gen_irrel fmtDate gen1 gen2 road (seg.start.getD "") (seg.endLoc.getD "")
    .trafficJams (seg.jams.getD []) h.1.1 ctr]
  cases h1 : procItems fmtDate gen2 road (seg.start.getD "") (seg.endLoc.getD "")
      .trafficJams (seg.jams.getD []) ctr with
  | error e => simp only [h1]
  | ok pr1 =>
    obtain ⟨cs1, ctr1⟩ := pr1
    simp only [h1]
    rw [procItems_gen_irrel fmtDate gen1 gen2 road (seg.start.getD "") (seg.endLoc.getD "")
      .roadWorks (seg.roadworks.getD []) h.1.2 ctr1]
    cases h2 : procItems fmtDate gen2 road (seg.start.getD "") (seg.endLoc.getD "")
        .roadWorks (seg.roadworks.getD []) ctr1 with
    | error e => simp only [h2]
    | ok pr2 =>
      obtain ⟨cs2, ctr2⟩ := pr2
      simp only [h2]
      rw [procItems_gen_irrel fmtDate gen1 gen2 road (seg.start.getD "") (seg.endLoc.getD "")
        .radars (seg.radars.getD []) h.2 ctr2]

theorem procSegments_gen_irrel (fmtDate : String → String) (gen1 gen2 : Nat → String)
    (road : Option String) (segs : List RawSegment)
    (h : segs.all (fun s =>
      ((s.jams.getD []) ++ (s.roadworks.getD []) ++ (s.radars.getD [])).all recordKeepsId)
      = true) :
    ∀ ctr, procSegments fmtDate gen1 road segs ctr = procSegments fmtDate gen2 road segs ctr := by
  induction segs with
  | nil => intro ctr; rfl
  | cons s ss ih =>
    intro ctr
    rw [List.all_cons, Bool.and_eq_true] at h
    simp only [procSegments]
    rw [procSegment_gen_irrel fmtDate gen1 gen2 road s h.1 ctr]
    cases h1 : procSegment fmtDate gen2 road s ctr with
    | error e => simp only [h1]
    | ok pr =>
      obtain ⟨cs1, ctr1⟩ := pr
      simp only [h1]
      rw [ih h.2 ctr1]

theorem procRoads_gen_irrel (fmtDate : String → String) (gen1 gen2 : Nat → String)
    (es : List RawRoadEntry)
    (h : es.all (fun e => (e.segments.getD []).all (fun s =>
      ((s.jams.getD []) ++ (s.roadworks.getD []) ++ (s.radars.getD [])).all recordKeepsId))
      = true) :
    ∀ ctr, procRoads fmtDate gen1 es ctr = procRoads fmtDate gen2 es ctr := by
  induction es with
  | nil => intro ctr; rfl
  | cons e2 es2 ih =>
    intro ctr
    rw [List.all_cons, Bool.and_eq_true] at h
    simp only [procRoads]
    rw [procSegments_gen_irrel fmtDate gen1 gen2 e2.road (e2.segments.getD []) h.1 ctr]
    cases h1 : procSegments fmtDate gen2 e2.road (e2.segments.getD []) ctr with
    | error e => simp only [h1]
    | ok pr =>
      obtain ⟨cs1, ctr1⟩ := pr
      simp only [h1]
      rw [ih h.2 ctr1]

/-- C8 (amended): the normalize-flatten-sort pipeline is a
deterministic function of the raw payload provided every raw item
carries an upstream id or message number.  Records lacking both
consume a freshly generated unique token (`crypto.randomUUID()`),
which differs between any two runs, so such payloads are excluded. -/
theorem flatten_deterministic_no_anon (fmtDate : String → String)
    (gen1 gen2 : Nat → String) (p : Payload) (h : noAnonPayload p = true) :
    flattenPayload fmtDate gen1 p = flattenPayload fmtDate gen2 p := by
  unfold flattenPayload
  rw [procRoads_gen_irrel fmtDate gen1 gen2 (p.roads.getD []) h 0]

/-- Witness for C8 (amended): with all ids present, two runs with
different UUID streams produce identical output. -/
theorem flatten_deterministic_no_anon_witness :
    noAnonPayload payloadWithIds = true ∧
    flattenPayload id (fun n => "run1-" ++ toString n) payloadWithIds
      = flattenPayload id (fun n => "run2-" ++ toString n) payloadWithIds :=
  ⟨rfl, flatten_deterministic_no_anon id (fun n => "run1-" ++ toString n)
    (fun n => "run2-" ++ toString n) payloadWithIds rfl⟩

/-- Counterexample for C8 as stated: the same payload flattened in two
runs (the fresh-UUID streams of two runs necessarily differ, since the
generated tokens are unique) yields different output — the ids
differ. -/
theorem flatten_uuid_nondeterminism_cex :
    (flattenPayload id (fun _ => "uuid-run1") payloadAnon).map (List.map Clean.id)
        = .ok ["uuid-run1"] ∧
    (flattenPayload id (fun _ => "uuid-run2") payloadAnon).map (List.map Clean.id)
        = .ok ["uuid-run2"] ∧
    flattenPayload id (fun _ => "uuid-run1") payloadAnon
      ≠ flattenPayload id (fun _ => "uuid-run2") payloadAnon := by
  refine ⟨rfl, rfl, ?_⟩
  intro h
  have h2 : (flattenPayload id (fun _ => "uuid-run1") payloadAnon).map (List.map Clean.id)
      = (flattenPayload id (fun _ => "uuid-run2") payloadAnon).map (List.map Clean.id) := by
    rw [h]
  rw [show (flattenPayload id (fun _ => "uuid-run1") payloadAnon).map (List.map Clean.id)
      = .ok ["uuid-run1"] from rfl,
    show (flattenPayload id (fun _ => "uuid-run2") payloadAnon).map (List.map Clean.id)
      = .ok ["uuid-run2"] from rfl] at h2
  injection h2 with h3
  injection h3 with h4 h5
  exact absurd h4 (by decide)

/- ------------------------------------------------------------------
   C5: cache freshness
   ------------------------------------------------------------------ -/

/-- C5: whenever a cache entry exists and its age is under the
60-second window, `fetchIncidents` returns the stored list with zero
upstream fetches and leaves the entry unchanged; consequently, two
consecutive calls from a cold cache inside one freshness window
perform exactly one upstream fetch in total (1 on the first call, 0 on
the second). -/
theorem fetchIncidents_fresh_cache (fmtDate : String → String) (gen : Nat → String)
    (e : CacheEntry) (now : Nat) (upstream : Except Unit Payload)
    (p : Payload) (now1 now2 : Nat) (data : List Clean) (up2 : Except Unit Payload)
    (hfresh : now - e.ts < freshWindow)
    (hp : flattenPayload fmtDate gen p = .ok data)
    (hwin : now2 - now1 < freshWindow) :
    fetchIncidents fmtDate gen (some e) now upstream = (.ok e.data, some e, 0) ∧
    fetchIncidents fmtDate gen none now1 (.ok p) = (.ok data, some ⟨now1, data⟩, 1) ∧
    fetchIncidents fmtDate gen (some ⟨now1, data⟩) now2 up2
      = (.ok data, some ⟨now1, data⟩, 0) := by
  refine ⟨?_, ?_, ?_⟩
  · simp [fetchIncidents, hfresh]
  · simp [fetchIncidents, hp]
  · simp [fetchIncidents, hwin]

/-- Witness for C5: a fresh entry at age 5 ms is served from cache,
and a cold-cache call followed by a second call 1 ms later performs
exactly one fetch. -/
theorem fetchIncidents_fresh_cache_witness :
    fetchIncidents id (fun _ => "u") (some ⟨5, []⟩) 10 (.error ()) = (.ok [], some ⟨5, []⟩, 0) ∧
    fetchIncidents id (fun _ => "u") none 100 (.ok payloadEmpty) = (.ok [], some ⟨100, []⟩, 1) ∧
    fetchIncidents id (fun _ => "u") (some ⟨100, []⟩) 101 (.error ())
      = (.ok [], some ⟨100, []⟩, 0) :=
  fetchIncidents_fresh_cache id (fun _ => "u") ⟨5, []⟩ 10 (.error ()) payloadEmpty 100 101 []
    (.error ()) (by decide) rfl (by decide)

/- ------------------------------------------------------------------
   C1: a failing feed fetch propagates out of getReply
   ------------------------------------------------------------------ -/

/-- C1 (amended): when the upstream feed fetch fails for a non-empty,
non-greeting query, `getReply` propagates the fetch error instead of
returning an apology string, and exactly one model-capability call —
entity extraction, which precedes the fetch — has been made for the
turn; the answer, route-summary and chat capabilities are not
called. -/
theorem getReply_feed_error_propagates (caps : Caps) (q : String) (history : List Msg)
    (e : String) (hq : trimStr q ≠ "") (hg : greetingMatch (trimStr q) = false) :
    getReply caps (.error e) q history = (.error e, [CapCall.extract]) := by
  rw [getReply, if_neg hq, if_neg (by simp [hg])]

/-- Witness for C1 (amended): the concrete query `"status"` with a
failing fetch. -/
theorem getReply_feed_error_propagates_witness :
    trimStr "status" ≠ "" ∧
    greetingMatch (trimStr "status") = false ∧
    getReply capsPlain (.error "ANWB feed error") "status" []
      = (.error "ANWB feed error", [CapCall.extract]) :=
  ⟨by decide, by decide,
    getReply_feed_error_propagates capsPlain "status" [] "ANWB feed error"
      (by decide) (by decide)⟩

/-- Counterexample for C1 as stated: with a failing feed fetch the
turn evaluates to the propagated error — not to an `ok` apology
string — and the capability-call list is not empty (entity extraction
already ran). -/
theorem getReply_feed_error_cex :
    getReply capsPlain (.error "ANWB feed error") "status" []
      = (.error "ANWB feed error", [CapCall.extract]) ∧
    (getReply capsPlain (.error "ANWB feed error") "status" []).1
      ≠ .ok "Sorry, I am having trouble connecting to the traffic data service right now." ∧
    (getReply capsPlain (.error "ANWB feed error") "status" []).2 ≠ [] := by
  refine ⟨rfl, ?_, ?_⟩
  · rw [show (getReply capsPlain (.error "ANWB feed error") "status" []).1
        = .error "ANWB feed error" from rfl]
    intro h
    cases h
  · rw [show (getReply capsPlain (.error "ANWB feed error") "status" []).2
        = [CapCall.extract] from rfl]
    intro h
    cases h

/- ------------------------------------------------------------------
   C10: empty entity lists still take the filter-and-answer branch
   ------------------------------------------------------------------ -/

theorem filterByEntities_no_filter (ents : Entities) (allIncidents : List Clean)
    (hro : ents.roads = none ∨ ents.roads = some [])
    (hco : ents.categories = none ∨ ents.categories = some []) :
    filterByEntities ents allIncidents = allIncidents := by
  rcases hro with h | h <;> rcases hco with h2 | h2 <;> simp [filterByEntities, h, h2]

/-- C10: when the extraction result contains a `roads` or `categories`
key whose value is an empty list (an empty array is truthy in JS), the
router still takes the filter-and-answer branch: no filter is applied,
the full unfiltered incident set is passed to the answer capability,
and this preempts the route-summary branch even when origin and
destination are both present. -/
theorem getReply_empty_entity_list_branch (caps : Caps) (q : String) (history : List Msg)
    (allIncidents : List Clean) (ents : Entities) (o d : String)
    (hq : trimStr q ≠ "") (hg : greetingMatch (trimStr q) = false)
    (hx : caps.extract (preprocessQuery (trimStr q) history) history = ents)
    (hro : ents.roads = none ∨ ents.roads = some [])
    (hco : ents.categories = none ∨ ents.categories = some [])
    (hne : ents.roads = some [] ∨ ents.categories = some [])
    (_hor : ents.origin = some o) (_hde : ents.destination = some d) :
    getReply caps (.ok allIncidents) q history
      = (.ok (caps.answer (trimStr q) allIncidents history ents),
          [CapCall.extract, CapCall.answer]) := by
  have hfil : filterByEntities ents allIncidents = allIncidents :=
    filterByEntities_no_filter ents allIncidents hro hco
  have hsome : (ents.roads.isSome || ents.categories.isSome) = true := by
    rcases hne with h | h <;> simp [h]
  rw [getReply, if_neg hq, if_neg (by simp [hg])]
  simp only [hx, hsome, if_true, hfil]

/-- Witness for C10: empty `roads`/`categories` lists with origin and
destination present — the full set goes to the answer capability. -/
theorem getReply_empty_entity_list_branch_witness :
    getReply capsEmptyLists (.ok [incA2acc, incA2con]) "how is traffic" []
      = (.ok (capsEmptyLists.answer (trimStr "how is traffic") [incA2acc, incA2con] []
          ⟨some [], some [], some "Amsterdam", some "Rotterdam"⟩),
        [CapCall.extract, CapCall.answer]) :=
  getReply_empty_entity_list_branch capsEmptyLists "how is traffic" [] [incA2acc, incA2con]
    ⟨some [], some [], some "Amsterdam", some "Rotterdam"⟩ "Amsterdam" "Rotterdam"
    (by decide) (by decide) rfl (Or.inr rfl) (Or.inr rfl) (Or.inl rfl) rfl rfl

/- ------------------------------------------------------------------
   C6: entity-driven filtering before the answer capability
   ------------------------------------------------------------------ -/

/-- C6: with non-empty extracted road and category lists, the router
filters the full incident set before calling the answer capability:
the road filter keeps exactly the incidents whose uppercased road is
in the uppercased road set; the category filter keeps exactly those
whose category string is in the (expanded) category set, the
`all_categories` marker expanding to every category except `other`;
both filters apply conjunctively, and the filtered subset is what the
answer capability receives. -/
theorem getReply_entity_filter (rs cs : List String) (o d : Option String)
    (allIncidents : List Clean) (i : Clean) (caps : Caps) (q : String) (history : List Msg)
    (hrs : rs ≠ []) (hcs : cs ≠ [])
    (hq : trimStr q ≠ "") (hg : greetingMatch (trimStr q) = false)
    (hx : caps.extract (preprocessQuery (trimStr q) history) history
      = ⟨some rs, some cs, o, d⟩) :
    (i ∈ filterByEntities ⟨some rs, some cs, o, d⟩ allIncidents ↔
      i ∈ allIncidents ∧ upperStr i.road ∈ rs.map upperStr ∧
        catStr i.category ∈ expandCats cs) ∧
    (i ∈ filterByEntities ⟨some rs, none, o, d⟩ allIncidents ↔
      i ∈ allIncidents ∧ upperStr i.road ∈ rs.map upperStr) ∧
    (i ∈ filterByEntities ⟨none, some cs, o, d⟩ allIncidents ↔
      i ∈ allIncidents ∧ catStr i.category ∈ expandCats cs) ∧
    ("all_categories" ∈ cs →
      (catStr i.category ∈ expandCats cs ↔ i.category ≠ .other)) ∧
    (getReply caps (.ok allIncidents) q history
      = (.ok (caps.answer (trimStr q)
            (filterByEntities ⟨some rs, some cs, o, d⟩ allIncidents) history
            ⟨some rs, some cs, o, d⟩),
          [CapCall.extract, CapCall.answer])) := by
  have hlr : rs.length > 0 := List.length_pos.mpr hrs
  have hlc : cs.length > 0 := List.length_pos.mpr hcs
  refine ⟨?_, ?_, ?_, ?_, ?_⟩
  · simp [filterByEntities, hlr, hlc, List.mem_filter, contains_iff_mem, and_assoc]
    tauto
  · simp [filterByEntities, hlr, List.mem_filter, contains_iff_mem]
  · simp [filterByEntities, hlc, List.mem_filter, contains_iff_mem]
  · intro hmem
    rw [expandCats, if_pos ((contains_iff_mem cs "all_categories").mpr hmem)]
    cases hcat : i.category <;> simp [catStr, allCategoriesExpansion]
  · rw [getReply, if_neg hq, if_neg (by simp [hg])]
    simp only [hx, Option.isSome_some, Bool.or_self, if_true]

/-- Witness for C6, the spec scenario: entities
`{roads: ["A2"], categories: ["construction"]}` against one
A2/accident and one A2/construction incident — the construction record
is kept and the filtered subset reaches the answer capability. -/
theorem getReply_entity_filter_witness :
    (incA2con ∈ filterByEntities ⟨some ["A2"], some ["construction"], none, none⟩
        [incA2acc, incA2con] ↔
      incA2con ∈ [incA2acc, incA2con] ∧
        upperStr incA2con.road ∈ (["A2"].map upperStr) ∧
        catStr incA2con.category ∈ expandCats ["construction"]) ∧
    getReply capsA2Con (.ok [incA2acc, incA2con]) "A2 construction?" []
      = (.ok (capsA2Con.answer (trimStr "A2 construction?")
            (filterByEntities ⟨some ["A2"], some ["construction"], none, none⟩
              [incA2acc, incA2con]) []
            ⟨some ["A2"], some ["construction"], none, none⟩),
          [CapCall.extract, CapCall.answer]) :=
  ⟨(getReply_entity_filter ["A2"] ["construction"] none none [incA2acc, incA2con] incA2con
      capsA2Con "A2 construction?" [] (by decide) (by decide) (by decide) (by decide) rfl).1,
   (getReply_entity_filter ["A2"] ["construction"] none none [incA2acc, incA2con] incA2con
      capsA2Con "A2 construction?" [] (by decide) (by decide) (by decide) (by decide)
      rfl).2.2.2.2⟩

end RoadBot

